import Mathlib

/-!
Shallow embedding of the core pipeline of the medical-diagnosis repository:
the pydantic schema boundary of the diagnosis stage (processing/diagnosis_module.py,
duplicated in streamlit_app.py), the PubMed search client (processing/pubmed_search.py)
and the summarizer (processing/summarizer.py). External collaborators (the HTTP
client, the XML text parser ET.fromstring, the generation service) are passed in
as function parameters; everything written in the repository itself is translated
directly from the Python source.
-/

namespace MedDiag

/-! ## XML document model

xml.etree.ElementTree elements as used by `_parse_articles`: an element has a tag,
an optional text payload and an ordered list of children. A mutual inductive is
used so that all recursions are structural. -/

mutual

inductive Xml where
  | elem (tag : String) (text : Option String) (children : XmlList)
deriving Repr

inductive XmlList where
  | nil
  | cons (head : Xml) (tail : XmlList)
deriving Repr

end

def XmlList.ofList : List Xml → XmlList
  | [] => .nil
  | x :: xs => .cons x (XmlList.ofList xs)

/-- Convenience constructor: an element with children given as a plain list. -/
def xe (tag : String) (text : Option String) (children : List Xml) : Xml :=
  .elem tag text (XmlList.ofList children)

def Xml.tag : Xml → String
  | .elem t _ _ => t

def Xml.text : Xml → Option String
  | .elem _ s _ => s

def Xml.childrenList : Xml → List Xml
  | .elem _ _ cs => xmlListToList cs
where xmlListToList : XmlList → List Xml
  | .nil => []
  | .cons c cs => c :: xmlListToList cs

mutual

/-- All proper descendants of an element, in document (preorder) order; this is the
element set walked by an ElementTree `.//tag` path. -/
def Xml.desc : Xml → List Xml
  | .elem _ _ cs => XmlList.descList cs

def XmlList.descList : XmlList → List Xml
  | .nil => []
  | .cons c cs => c :: (Xml.desc c ++ XmlList.descList cs)

end

/-- ElementTree `findall(".//t")`: all descendants with the given tag, document order. -/
def findallDesc (e : Xml) (t : String) : List Xml :=
  e.desc.filter (fun c => c.tag == t)

/-- ElementTree `find(".//t")`: first descendant with the given tag, or None. -/
def findDesc (e : Xml) (t : String) : Option Xml :=
  (findallDesc e t).head?

/-- ElementTree `find("t")`: first direct child with the given tag, or None. -/
def findChild (e : Xml) (t : String) : Option Xml :=
  ((e.childrenList).filter (fun c => c.tag == t)).head?

/-- ElementTree `find(".//t1/t2")`: first t2-child of a t1-descendant. -/
def findDescPath (e : Xml) (t1 t2 : String) : Option Xml :=
  (((findallDesc e t1).map (fun a => (a.childrenList).filter (fun c => c.tag == t2))).flatten).head?

/-! ## PubMedArticle and `_parse_articles` (processing/pubmed_search.py, lines 8-181) -/

/-- Translated from class PubMedArticle (pubmed_search.py lines 8-24). -/
structure PubMedArticle where
  pmid : String
  title : String
  abstract : String
  year : String
  authors : List String
deriving Repr, DecidableEq

/-- pmid extraction (pubmed_search.py lines 134-137): `find(".//PMID")`, then
`pmid_elem.text or ""` when the element is present, else the initial `""`. -/
def extractPMID (e : Xml) : String :=
  match findDesc e "PMID" with
  | some el => el.text.getD ""
  | none => ""

/-- title extraction (pubmed_search.py lines 139-142). -/
def extractTitle (e : Xml) : String :=
  match findDesc e "ArticleTitle" with
  | some el => el.text.getD ""
  | none => ""

/-- abstract extraction (pubmed_search.py lines 144-147): `find(".//Abstract/AbstractText")`. -/
def extractAbstract (e : Xml) : String :=
  match findDescPath e "Abstract" "AbstractText" with
  | some el => el.text.getD ""
  | none => ""

/-- year extraction (pubmed_search.py lines 149-157): the `.//PubDate/Year` text when
that element exists (empty when its text is None); otherwise, when the
`.//PubDate/MedlineDate` element exists and its text is truthy (not None, non-empty),
the first 4 characters of that text; otherwise the initial `""`. -/
def extractYear (e : Xml) : String :=
  match findDescPath e "PubDate" "Year" with
  | some el => el.text.getD ""
  | none =>
    match findDescPath e "PubDate" "MedlineDate" with
    | some el =>
      match el.text with
      | some t => if t ≠ "" then t.take 4 else ""
      | none => ""
    | none => ""

/-- One author (pubmed_search.py lines 160-167): requires a LastName child with truthy
text; appends a space and the Initials text when that child exists with truthy text. -/
def parseAuthor (a : Xml) : Option String :=
  match findChild a "LastName" with
  | some ln =>
    match ln.text with
    | some lt =>
      if lt ≠ "" then
        some (match findChild a "Initials" with
          | some ini =>
            match ini.text with
            | some it => if it ≠ "" then lt ++ " " ++ it else lt
            | none => lt
          | none => lt)
      else none
    | none => none
  | none => none

/-- author list extraction (pubmed_search.py lines 159-167): all `.//Author` descendants,
each contributing a name when parseAuthor accepts it. -/
def extractAuthors (e : Xml) : List String :=
  (findallDesc e "Author").filterMap parseAuthor

/-- One loop iteration of `_parse_articles` (pubmed_search.py lines 127-176): the record
is appended only when `pmid and title` is truthy (both non-empty); the author list is
truncated to the first 3. -/
def parseRecord (e : Xml) : Option PubMedArticle :=
  if extractPMID e ≠ "" ∧ extractTitle e ≠ "" then
    some { pmid := extractPMID e, title := extractTitle e, abstract := extractAbstract e,
           year := extractYear e, authors := (extractAuthors e).take 3 }
  else
    none

/-- The loop of `_parse_articles` over `root.findall(".//PubmedArticle")`. -/
def parseArticlesOf (root : Xml) : List PubMedArticle :=
  (findallDesc root "PubmedArticle").filterMap parseRecord

/-- `_parse_articles` (pubmed_search.py lines 120-181). The external library call
`ET.fromstring` is a parameter; the `except ET.ParseError: pass` branch corresponds to
the parse function returning none, in which case the accumulated list is still `[]`. -/
def parse_articles (fromstring : String → Option Xml) (xml_text : String) : List PubMedArticle :=
  match fromstring xml_text with
  | some root => parseArticlesOf root
  | none => []

/-! ## search / search_sync (pubmed_search.py lines 40-118)

The two network calls are modelled by an abstract backend: the esearch call is
represented by the idlist that the JSON response carries, the efetch call by the raw
XML text returned for a comma-joined id string. Which calls were issued is recorded
in a trace so that "the second call is never issued" is observable. -/

inductive NetCall where
  | esearchCall
  | efetchCall
deriving Repr, DecidableEq

structure EntrezBackend where
  esearchIdlist : String → List String
  efetchXml : String → String
  fromstring : String → Option Xml

/-- `search` (pubmed_search.py lines 40-78): issue the esearch call for the query;
if the idlist is empty return `[]` at once, otherwise issue the efetch call with the
comma-joined ids and parse its XML body. The returned trace lists the calls issued. -/
def search (b : EntrezBackend) (query : String) : List PubMedArticle × List NetCall :=
  let id_list := b.esearchIdlist query
  if id_list.isEmpty then
    ([], [NetCall.esearchCall])
  else
    (parse_articles b.fromstring (b.efetchXml (String.intercalate "," id_list)),
     [NetCall.esearchCall, NetCall.efetchCall])

/-- `search_sync` (pubmed_search.py lines 80-118): the synchronous twin of `search`,
with an identical request/parse structure. -/
def search_sync (b : EntrezBackend) (query : String) : List PubMedArticle × List NetCall :=
  let id_list := b.esearchIdlist query
  if id_list.isEmpty then
    ([], [NetCall.esearchCall])
  else
    (parse_articles b.fromstring (b.efetchXml (String.intercalate "," id_list)),
     [NetCall.esearchCall, NetCall.efetchCall])

/-! ## build_search_query (pubmed_search.py lines 183-202 and streamlit_app.py lines 218-222) -/

/-- `build_search_query` of processing/pubmed_search.py: quote the first 3 symptoms and,
when the conditions argument is truthy (non-empty), the first 2 condition names, each
scoped to Title/Abstract; join with " OR " and append the publication-type filter. -/
def build_search_query (symptoms : List String) (conditions : List String) : String :=
  let terms := (symptoms.take 3).map (fun s => "\"" ++ s ++ "\"[Title/Abstract]")
  let terms :=
    if conditions.isEmpty then terms
    else terms ++ (conditions.take 2).map (fun c => "\"" ++ c ++ "\"[Title/Abstract]")
  let query := String.intercalate " OR " terms
  query ++ " AND (review[pt] OR clinical trial[pt] OR meta-analysis[pt])"

/-- `build_search_query` of streamlit_app.py (lines 218-222): list comprehension over
`symptoms[:3]`, extended by `conditions[:2]` when conditions is truthy, joined and
suffixed in a single expression. -/
def build_search_query_app (symptoms : List String) (conditions : List String) : String :=
  let terms := (symptoms.take 3).map (fun s => "\"" ++ s ++ "\"[Title/Abstract]")
  let terms :=
    if conditions.isEmpty then terms
    else terms ++ (conditions.take 2).map (fun c => "\"" ++ c ++ "\"[Title/Abstract]")
  String.intercalate " OR " terms ++ " AND (review[pt] OR clinical trial[pt] OR meta-analysis[pt])"

/-- The mandatory evidence-type filter appended by both query builders. -/
def evidenceFilter : String :=
  " AND (review[pt] OR clinical trial[pt] OR meta-analysis[pt])"

/-- The query-building algorithm as worded by the spec (section 4.3): at most the first
3 symptoms and at most the first 2 condition names, each rendered as an exact-phrase
Title/Abstract term, OR-joined, with the mandatory filter appended. Stated separately
from the source translation so the two can be compared. -/
def buildQuerySpec (symptoms : List String) (conditions : List String) : String :=
  String.intercalate " OR "
    ((symptoms.take 3 ++ conditions.take 2).map (fun t => "\"" ++ t ++ "\"[Title/Abstract]"))
  ++ evidenceFilter

/-! ## Summarizer (processing/summarizer.py) -/

/-- One reference entry of the references list (summarizer.py lines 95-103). -/
structure Reference where
  title : String
  pmid : String
  year : String
  url : String
deriving Repr, DecidableEq

/-- Translated from class PubMedSummary (summarizer.py lines 9-26). -/
structure PubMedSummary where
  articles_found : Nat
  summary : String
  references : List Reference
deriving Repr, DecidableEq

/-- The prompt template of the Summarizer (summarizer.py lines 39-59) with the three
input variables substituted, as the chain does on invocation. -/
def summaryPrompt (symptoms conditions abstracts : String) : String :=
  "You are a medical information summarizer. Create a patient-friendly summary of the following medical research abstracts.\n\nContext:\n- Patient symptoms: " ++ symptoms ++ "\n- Potential conditions: " ++ conditions ++ "\n\nResearch Abstracts:\n" ++ abstracts ++ "\n\nCreate a summary that:\n1. Explains relevant findings in simple, non-technical language\n2. Highlights any important insights about the symptoms or conditions\n3. Notes any recommended treatments or approaches mentioned in research\n4. Maintains accuracy while being accessible to general audience\n\nIMPORTANT: This summary is for informational purposes only. Always recommend consulting healthcare professionals.\n\nSummary:"

/-- One context block (summarizer.py lines 78-82): built only for articles whose
abstract is truthy, so the `or` fallback text is kept as in the source. -/
def abstractBlock (a : PubMedArticle) : String :=
  "Title: " ++ a.title ++ "\nAbstract: " ++ (if a.abstract ≠ "" then a.abstract else "No abstract available")

/-- `summarize` (summarizer.py lines 63-109). The generation service is the `llm`
parameter; the second component counts how many generation calls were made. An empty
article list short-circuits to the fixed narrative with no references and no call;
otherwise the context is the double-newline join over the articles with a truthy
abstract (replaced by a placeholder when that join is empty), one call is made, and
the references are built from the full article list. -/
def summarize (llm : String → String) (articles : List PubMedArticle)
    (symptoms conditions : List String) : PubMedSummary × Nat :=
  if articles.isEmpty then
    ({ articles_found := 0,
       summary := "No relevant medical literature found for these symptoms.",
       references := [] }, 0)
  else
    let abstracts_text :=
      String.intercalate "\n\n" ((articles.filter (fun a => a.abstract ≠ "")).map abstractBlock)
    let abstracts_text :=
      if abstracts_text = "" then "No abstracts available for the found articles." else abstracts_text
    let content := llm (summaryPrompt (String.intercalate ", " symptoms)
      (String.intercalate ", " conditions) abstracts_text)
    let references := articles.map (fun a =>
      { title := a.title, pmid := a.pmid, year := a.year,
        url := "https://pubmed.ncbi.nlm.nih.gov/" ++ a.pmid ++ "/" : Reference })
    ({ articles_found := articles.length, summary := content, references := references }, 1)

/-! ## The diagnosis schema boundary (processing/diagnosis_module.py lines 10-21,
duplicated verbatim in streamlit_app.py lines 92-100)

The generation output is parsed by a PydanticOutputParser against the models below.
Each declared field is a required `str` (or list) with only a `description=` on its
Field — no validator, enum or length constraint is declared — so the validation that
the boundary performs is: every field present with the declared shape. The value of a
string field is taken as-is. A raw record with Option fields models the JSON object
the generative source emitted (a missing key is `none`). -/

/-- Translated from class Condition: `name: str`, `probability: str`, `description: str`. -/
structure Condition where
  name : String
  probability : String
  description : String
deriving Repr, DecidableEq

/-- A condition object as emitted by the generative source, before validation. -/
structure RawCondition where
  name : Option String
  probability : Option String
  description : Option String
deriving Repr, DecidableEq

/-- The schema parse of one Condition: each of the three declared fields must be
present; no constraint other than presence is declared, so the string values are
passed through unchanged. -/
def validateCondition (r : RawCondition) : Option Condition :=
  match r.name, r.probability, r.description with
  | some n, some p, some d => some { name := n, probability := p, description := d }
  | _, _, _ => none

/-- Translated from class DiagnosisResult: `conditions: List[Condition]`,
`recommendations: List[str]`, `urgency: str`. -/
structure DiagnosisResult where
  conditions : List Condition
  recommendations : List String
  urgency : String
deriving Repr, DecidableEq

/-- A diagnosis object as emitted by the generative source, before validation. -/
structure RawDiagnosisResult where
  conditions : Option (List RawCondition)
  recommendations : Option (List String)
  urgency : Option String
deriving Repr, DecidableEq

/-- Item-wise validation of the conditions list: every element must itself validate. -/
def validateConditions : List RawCondition → Option (List Condition)
  | [] => some []
  | r :: rs =>
    match validateCondition r, validateConditions rs with
    | some c, some cs => some (c :: cs)
    | _, _ => none

/-- The schema parse of a DiagnosisResult: the three declared fields must be present
and each condition element must validate. The model declares no bound on the length
of `conditions` and no vocabulary for `urgency`, so none is checked. -/
def validateDiagnosisResult (r : RawDiagnosisResult) : Option DiagnosisResult :=
  match r.conditions, r.recommendations, r.urgency with
  | some cs, some recs, some u =>
    match validateConditions cs with
    | some cs2 => some { conditions := cs2, recommendations := recs, urgency := u }
    | none => none
  | _, _, _ => none

/-- The canonical probability vocabulary named by the Field description
("Probability level: high, medium, or low"). -/
def canonicalProbabilities : List String := ["high", "medium", "low"]

/-! ## Concrete fixtures used to instantiate the theorems -/

/-- A record element carrying a PMID but no ArticleTitle. -/
def recordNoTitle : Xml :=
  xe "PubmedArticle" none [
    xe "MedlineCitation" none [
      xe "PMID" (some "99999") []]]

/-- A bibliographic document whose only record carries a PMID but no ArticleTitle. -/
def docNoTitle : Xml :=
  xe "PubmedArticleSet" none [recordNoTitle]

/-- A record with a MedlineDate of "2019 Jan-Feb" and no Year element in its PubDate. -/
def medlineArticle : Xml :=
  xe "PubmedArticle" none [
    xe "MedlineCitation" none [
      xe "PMID" (some "11111") [],
      xe "Article" none [
        xe "ArticleTitle" (some "Sample title") [],
        xe "Journal" none [
          xe "JournalIssue" none [
            xe "PubDate" none [
              xe "MedlineDate" (some "2019 Jan-Feb") []]]]]]]

/-- A backend whose ID search returns an empty idlist for every query. -/
def emptyBackend : EntrezBackend :=
  { esearchIdlist := fun _ => [], efetchXml := fun _ => "", fromstring := fun _ => none }

/-- A sample parsed article. -/
def sampleArticle : PubMedArticle :=
  { pmid := "12345", title := "Sample title", abstract := "", year := "2020", authors := [] }

/-- A generated diagnosis object carrying a single condition. -/
def rawSingletonDiagnosis : RawDiagnosisResult :=
  { conditions := some [{ name := some "Common cold", probability := some "high",
                          description := some "a viral infection" }],
    recommendations := some [], urgency := some "routine" }

/-! ## Theorems -/

/-- Claim C3: for every pair of input lists, build_search_query returns the quoted
Title/Abstract exact-phrase terms of at most the first 3 symptoms followed by at most
the first 2 condition names in input order, joined by " OR ", always ending with the
mandatory evidence-type filter suffix; as a plain function of the two lists it is
deterministic regardless of how many symptoms or conditions are supplied. -/
theorem c3_build_search_query_correct (symptoms conditions : List String) :
    build_search_query symptoms conditions = buildQuerySpec symptoms conditions ∧
    ∃ body, build_search_query symptoms conditions = body ++ evidenceFilter := by
  refine ⟨?_, ⟨_, rfl⟩⟩
  by_cases h : conditions.isEmpty
  · rw [List.isEmpty_iff] at h
    simp [build_search_query, buildQuerySpec, evidenceFilter, h]
  · simp [build_search_query, buildQuerySpec, evidenceFilter, h, List.map_append]

/-- Claim C10: the query builder of processing/pubmed_search.py and the one of
streamlit_app.py are extensionally equal. -/
theorem c10_query_builders_agree (symptoms conditions : List String) :
    build_search_query symptoms conditions = build_search_query_app symptoms conditions := rfl

/-- Claim C6: when the XML text does not parse (the library parse raises ParseError,
modelled as the parse function returning none), the article parser returns the empty
list rather than failing. -/
theorem c6_malformed_xml_yields_empty (fromstring : String → Option Xml) (s : String)
    (h : fromstring s = none) :
    parse_articles fromstring s = [] := by
  simp [parse_articles, h]

/-- Witness for C6 at a concrete unparsable input. -/
theorem c6_malformed_xml_witness :
    (fun (_ : String) => (none : Option Xml)) "<PubmedArticleSet" = none ∧
    parse_articles (fun _ => none) "<PubmedArticleSet" = [] :=
  ⟨rfl, c6_malformed_xml_yields_empty (fun _ => none) "<PubmedArticleSet" rfl⟩

/-- Claim C7: when the ID-search step yields an empty idlist, both search and
search_sync return the empty list at once, with only the esearch call in the trace —
the efetch call is never issued. -/
theorem c7_empty_idlist_no_fetch (b : EntrezBackend) (q : String)
    (h : b.esearchIdlist q = []) :
    search b q = ([], [NetCall.esearchCall]) ∧
    search_sync b q = ([], [NetCall.esearchCall]) ∧
    NetCall.efetchCall ∉ (search b q).2 := by
  refine ⟨?_, ?_, ?_⟩ <;> simp [search, search_sync, h]

/-- Witness for C7: a backend whose ID search finds nothing. -/
theorem c7_empty_idlist_witness :
    emptyBackend.esearchIdlist "fever" = [] ∧
    search emptyBackend "fever" = ([], [NetCall.esearchCall]) ∧
    search_sync emptyBackend "fever" = ([], [NetCall.esearchCall]) ∧
    NetCall.efetchCall ∉ (search emptyBackend "fever").2 :=
  ⟨rfl, c7_empty_idlist_no_fetch emptyBackend "fever" rfl⟩

/-- Claim C8: for every symptoms and conditions input, summarize on an empty records
sequence returns articles_found = 0, the fixed non-empty fallback narrative and an
empty references list, and makes no generation call (the call counter is 0). -/
theorem c8_summarize_empty (llm : String → String) (symptoms conditions : List String) :
    summarize llm [] symptoms conditions =
      ({ articles_found := 0,
         summary := "No relevant medical literature found for these symptoms.",
         references := [] }, 0) ∧
    "No relevant medical literature found for these symptoms." ≠ "" :=
  ⟨rfl, by decide⟩

/-- Claim C9: for every non-empty records list, the references of the summary are the
image of the original unfiltered records list — one reference per record, in order, so
the lengths agree — and each url is https://pubmed.ncbi.nlm.nih.gov/<id>/. -/
theorem c9_references_from_unfiltered (llm : String → String)
    (articles : List PubMedArticle) (symptoms conditions : List String)
    (h : articles ≠ []) :
    (summarize llm articles symptoms conditions).1.references =
      articles.map (fun a =>
        { title := a.title, pmid := a.pmid, year := a.year,
          url := "https://pubmed.ncbi.nlm.nih.gov/" ++ a.pmid ++ "/" : Reference }) ∧
    (summarize llm articles symptoms conditions).1.references.length = articles.length := by
  match articles with
  | [] => exact absurd rfl h
  | a :: as => refine ⟨?_, ?_⟩ <;> simp [summarize]

/-- Witness for C9 at a one-record list. -/
theorem c9_references_witness :
    [sampleArticle] ≠ [] ∧
    (summarize (fun _ => "text") [sampleArticle] ["fever"] ["flu"]).1.references =
      [sampleArticle].map (fun a =>
        { title := a.title, pmid := a.pmid, year := a.year,
          url := "https://pubmed.ncbi.nlm.nih.gov/" ++ a.pmid ++ "/" : Reference }) ∧
    (summarize (fun _ => "text") [sampleArticle] ["fever"] ["flu"]).1.references.length =
      [sampleArticle].length :=
  ⟨List.cons_ne_nil _ _,
   c9_references_from_unfiltered (fun _ => "text") [sampleArticle] ["fever"] ["flu"]
     (List.cons_ne_nil _ _)⟩

/-- Claim C4: a record node whose PMID or ArticleTitle is absent is discarded — it
contributes no element to the article list — and in particular the document whose only
record lacks a title parses to the empty list. The embedded parser is a total
function, so the parse completes on every tree. -/
theorem c4_missing_id_or_title_discarded :
    (∀ e : Xml, findDesc e "PMID" = none ∨ findDesc e "ArticleTitle" = none →
      parseRecord e = none) ∧
    parseArticlesOf docNoTitle = [] := by
  refine ⟨?_, rfl⟩
  intro e h
  rcases h with h | h
  · simp [parseRecord, extractPMID, h]
  · simp [parseRecord, extractTitle, h]

/-- Witness for C4 at the record that lacks an ArticleTitle. -/
theorem c4_missing_title_witness :
    (findDesc recordNoTitle "PMID" = none ∨ findDesc recordNoTitle "ArticleTitle" = none) ∧
    parseRecord recordNoTitle = none :=
  ⟨Or.inr rfl, c4_missing_id_or_title_discarded.1 recordNoTitle (Or.inr rfl)⟩

/-- Claim C5: the year of a parsed record is the text of the PubDate/Year element when
that element is present; otherwise the first 4 characters of the PubDate/MedlineDate
text when that is present and non-empty; otherwise the empty string. -/
theorem c5_year_extraction (e : Xml) :
    (∀ y t, findDescPath e "PubDate" "Year" = some y → y.text = some t →
      extractYear e = t) ∧
    (∀ m t, findDescPath e "PubDate" "Year" = none →
      findDescPath e "PubDate" "MedlineDate" = some m → m.text = some t → t ≠ "" →
      extractYear e = t.take 4) ∧
    (∀ m, findDescPath e "PubDate" "Year" = none →
      findDescPath e "PubDate" "MedlineDate" = some m →
      (m.text = none ∨ m.text = some "") → extractYear e = "") ∧
    (findDescPath e "PubDate" "Year" = none →
      findDescPath e "PubDate" "MedlineDate" = none → extractYear e = "") := by
  refine ⟨?_, ?_, ?_, ?_⟩
  · intro y t h1 h2
    simp [extractYear, h1, h2]
  · intro m t h1 h2 h3 h4
    simp [extractYear, h1, h2, h3, h4]
  · intro m h1 h2 h3
    rcases h3 with h3 | h3 <;> simp [extractYear, h1, h2, h3]
  · intro h1 h2
    simp [extractYear, h1, h2]

/-- Witness for C5: the record with MedlineDate "2019 Jan-Feb" and no Year element
parses to year "2019". -/
theorem c5_medline_year_witness :
    findDescPath medlineArticle "PubDate" "Year" = none ∧
    findDescPath medlineArticle "PubDate" "MedlineDate" =
      some (xe "MedlineDate" (some "2019 Jan-Feb") []) ∧
    extractYear medlineArticle = "2019" := by
  refine ⟨rfl, rfl, ?_⟩
  have h := (c5_year_extraction medlineArticle).2.1 (xe "MedlineDate" (some "2019 Jan-Feb") [])
    "2019 Jan-Feb" rfl rfl rfl (by decide)
  exact h.trans rfl

/-- Claim C1 counterexample: the schema parse of the generation output accepts a
Condition whose probability is outside the canonical set {high, medium, low} and
returns it unchanged — the non-canonical value is neither rejected nor coerced at the
validation boundary. -/
theorem c1_noncanonical_probability_accepted :
    validateCondition { name := some "Influenza", probability := some "certain",
                        description := some "a viral infection" } =
      some { name := "Influenza", probability := "certain",
             description := "a viral infection" } ∧
    "certain" ∉ canonicalProbabilities :=
  ⟨rfl, by decide⟩

/-- Claim C1 as amended: the schema parse requires name, probability and description to
be present as strings but applies no vocabulary check to probability; whatever string
the generative source supplied is passed downstream unchanged. -/
theorem c1_probability_passthrough (r : RawCondition) (c : Condition)
    (h : validateCondition r = some c) :
    r.name = some c.name ∧ r.probability = some c.probability ∧
    r.description = some c.description := by
  rcases r with ⟨n, p, d⟩
  cases n with
  | none => simp [validateCondition] at h
  | some n =>
    cases p with
    | none => simp [validateCondition] at h
    | some p =>
      cases d with
      | none => simp [validateCondition] at h
      | some d =>
        simp only [validateCondition, Option.some.injEq] at h
        subst h
        exact ⟨rfl, rfl, rfl⟩

/-- Witness for the amended C1 at a non-canonical probability value. -/
theorem c1_passthrough_witness :
    validateCondition { name := some "Flu", probability := some "unlikely",
                        description := some "d" } =
      some { name := "Flu", probability := "unlikely", description := "d" } ∧
    ({ name := some "Flu", probability := some "unlikely",
       description := some "d" } : RawCondition).probability =
      some ({ name := "Flu", probability := "unlikely",
              description := "d" } : Condition).probability :=
  ⟨rfl, (c1_probability_passthrough
    { name := some "Flu", probability := some "unlikely", description := some "d" }
    { name := "Flu", probability := "unlikely", description := "d" } rfl).2.1⟩

/-- Helper: item-wise validation of the conditions list preserves its length. -/
theorem validateConditions_length (rs : List RawCondition) (cs : List Condition)
    (h : validateConditions rs = some cs) : cs.length = rs.length := by
  induction rs generalizing cs with
  | nil =>
    simp only [validateConditions, Option.some.injEq] at h
    subst h
    rfl
  | cons r rs ih =>
    simp only [validateConditions] at h
    cases hv : validateCondition r with
    | none => rw [hv] at h; simp at h
    | some c =>
      rw [hv] at h
      cases hrs : validateConditions rs with
      | none => rw [hrs] at h; simp at h
      | some cs2 =>
        rw [hrs] at h
        simp only [Option.some.injEq] at h
        subst h
        simp [ih cs2 hrs]

/-- Claim C2 counterexample: the schema parse of the diagnosis output accepts a
DiagnosisResult whose conditions list has length 1, below the claimed lower bound 2. -/
theorem c2_singleton_conditions_accepted :
    validateDiagnosisResult rawSingletonDiagnosis =
      some { conditions := [{ name := "Common cold", probability := "high",
                              description := "a viral infection" }],
             recommendations := [], urgency := "routine" } ∧
    [({ name := "Common cold", probability := "high",
        description := "a viral infection" } : Condition)].length < 2 :=
  ⟨rfl, by decide⟩

/-- Claim C2 as amended: the schema boundary imposes no length constraint on the
conditions sequence; every accepted DiagnosisResult carries exactly as many conditions
as the generative source emitted, whatever that number is. -/
theorem c2_no_length_bound (raw : RawDiagnosisResult) (res : DiagnosisResult)
    (h : validateDiagnosisResult raw = some res) :
    ∃ rcs, raw.conditions = some rcs ∧ res.conditions.length = rcs.length := by
  rcases raw with ⟨rawConds, rawRecs, rawUrgency⟩
  cases rawConds with
  | none => simp [validateDiagnosisResult] at h
  | some rcs =>
    cases rawRecs with
    | none => simp [validateDiagnosisResult] at h
    | some recs =>
      cases rawUrgency with
      | none => simp [validateDiagnosisResult] at h
      | some u =>
        simp only [validateDiagnosisResult] at h
        cases hv : validateConditions rcs with
        | none => rw [hv] at h; simp at h
        | some cs2 =>
          rw [hv] at h
          simp only [Option.some.injEq] at h
          subst h
          exact ⟨rcs, rfl, validateConditions_length rcs cs2 hv⟩

/-- Witness for the amended C2 at a single-condition diagnosis. -/
theorem c2_no_length_bound_witness :
    validateDiagnosisResult rawSingletonDiagnosis =
      some { conditions := [{ name := "Common cold", probability := "high",
                              description := "a viral infection" }],
             recommendations := [], urgency := "routine" } ∧
    ∃ rcs, rawSingletonDiagnosis.conditions = some rcs ∧
      ({ conditions := [{ name := "Common cold", probability := "high",
                          description := "a viral infection" }],
         recommendations := [], urgency := "routine" } : DiagnosisResult).conditions.length =
        rcs.length :=
  ⟨rfl, c2_no_length_bound rawSingletonDiagnosis _ rfl⟩

end MedDiag
